import Mathlib

/-!
Verification of the book CRUD service (`src/main.py`).

The service stores `Book` rows (`id`, `title`, `author`) in a relational
table and exposes five HTTP handlers: list, get-by-id, create, update,
delete.  We embed the persisted store as a `DB` value (the list of rows in
table order plus the autoincrement counter of the `id` primary-key column)
and each route handler as a pure function from its parsed arguments and the
current `DB` to a result and the next `DB`.  `HTTPException` mirrors
FastAPI's exception type as raised in the handlers.  On top of the typed
handlers, a raw layer embeds how the framework validates the declared
parameter types (integer path segment, `BookCreate` request body) before a
handler runs, as described by the spec, and serialises results to
status/JSON responses.
-/

set_option autoImplicit false

namespace BookService

/-- A persisted row of the `books` table (`class Book(Base)`): integer
primary key `id`, text columns `title` and `author`. -/
structure Book where
  id : Int
  title : String
  author : String
deriving DecidableEq, Repr

/-- The validated request body (`class BookCreate(BaseModel)`): a `title`
and an `author`, both text. -/
structure BookCreate where
  title : String
  author : String
deriving DecidableEq, Repr

/-- The response shape (`class BookOut(BookCreate)`): the input fields plus
the row's `id`. -/
structure BookOut where
  id : Int
  title : String
  author : String
deriving DecidableEq, Repr

/-- ORM conversion (`orm_mode = True`): a row rendered as a `BookOut`. -/
def Book.toOut (b : Book) : BookOut :=
  ⟨b.id, b.title, b.author⟩

/-- The persisted state: the rows of the `books` table in table order, and
the next value of the autoincrement `id` primary-key column. -/
structure DB where
  books : List Book
  nextId : Int
deriving DecidableEq, Repr

/-- `HTTPException(status_code=..., detail=...)` as raised by the
handlers. -/
structure HTTPException where
  status_code : Nat
  detail : String
deriving DecidableEq, Repr

/-- `db.query(Book).filter(Book.id == book_id).first()`: the first row of
the table whose `id` matches, if any. -/
def queryFirst (db : DB) (book_id : Int) : Option Book :=
  db.books.find? (fun b => b.id == book_id)

/-- `get_books` (GET /books): `db.query(Book).all()`, each row rendered as
a `BookOut`. -/
def get_books (db : DB) : List BookOut :=
  db.books.map Book.toOut

/-- `get_book` (GET /books/{book_id}): query the row by id; raise
`HTTPException(404, "Book not found")` if absent, else return the row. -/
def get_book (book_id : Int) (db : DB) : Except HTTPException BookOut :=
  match queryFirst db book_id with
  | none => .error ⟨404, "Book not found"⟩
  | some book => .ok book.toOut

/-- `create_book` (POST /books): build a row from the body's title and
author, `db.add` it (a new row, id assigned by the autoincrement column on
commit), and return the created row. -/
def create_book (book : BookCreate) (db : DB) : BookOut × DB :=
  let db_book : Book := ⟨db.nextId, book.title, book.author⟩
  (db_book.toOut, ⟨db.books ++ [db_book], db.nextId + 1⟩)

/-- In-place mutation of the first row matching the id (`db_book.title =
...; db_book.author = ...` on the object returned by `.first()`): the row
keeps its `id`, its `title` and `author` are overwritten. -/
def updateFirst (books : List Book) (book_id : Int) (t a : String) : List Book :=
  match books with
  | [] => []
  | b :: rest =>
    if b.id == book_id then ⟨b.id, t, a⟩ :: rest
    else b :: updateFirst rest book_id t a

/-- `update_book` (PUT /books/{book_id}): query the row by id; raise
`HTTPException(404, "Book not found")` if absent (leaving the store
untouched), else overwrite its title and author in place and return the
updated row. -/
def update_book (book_id : Int) (updated_book : BookCreate) (db : DB) :
    Except HTTPException BookOut × DB :=
  match queryFirst db book_id with
  | none => (.error ⟨404, "Book not found"⟩, db)
  | some db_book =>
    (.ok ⟨db_book.id, updated_book.title, updated_book.author⟩,
      ⟨updateFirst db.books book_id updated_book.title updated_book.author, db.nextId⟩)

/-- The body returned by a successful delete:
`{"message": f"Book(id={book_id}) deleted succesfully"}`. -/
structure DeleteMessage where
  message : String
deriving DecidableEq, Repr

/-- `delete_book` (DELETE /books/{book_id}): query the row by id; raise
`HTTPException(404, "Book not found")` if absent (leaving the store
untouched), else remove that row and return the confirmation message. -/
def delete_book (book_id : Int) (db : DB) : Except HTTPException DeleteMessage × DB :=
  match queryFirst db book_id with
  | none => (.error ⟨404, "Book not found"⟩, db)
  | some _ =>
    (.ok ⟨"Book(id=" ++ toString book_id ++ ") deleted succesfully"⟩,
      ⟨db.books.eraseP (fun b => b.id == book_id), db.nextId⟩)

/-- The id-freshness part of the store invariant: every row's `id` is below
the autoincrement counter, so the next assigned id is fresh. -/
def FreshIds (db : DB) : Prop :=
  ∀ b ∈ db.books, b.id < db.nextId

instance (db : DB) : Decidable (FreshIds db) :=
  List.decidableBAll _ db.books

/-- The store invariant maintained by the `books` table: the `id` column is
a primary key (pairwise distinct), and the autoincrement counter is above
every stored id. -/
def WF (db : DB) : Prop :=
  (db.books.map Book.id).Nodup ∧ FreshIds db

instance (db : DB) : Decidable (WF db) :=
  inferInstanceAs (Decidable (_ ∧ _))

/-! ## The raw HTTP layer

FastAPI parses the `{book_id}` path segment against the declared `int`
type and the request body against the declared `BookCreate` model before a
handler runs; that validation is framework code, not part of this
repository, so it is modelled from the spec here. -/

/-- A JSON scalar appearing as a field value of a request body. -/
inductive JsonVal where
  | jnull
  | jbool (b : Bool)
  | jint (n : Int)
  | jstr (s : String)
deriving DecidableEq, Repr

/-- A raw JSON-object request body: its fields in order. -/
structure RawBody where
  fields : List (String × JsonVal)
deriving DecidableEq, Repr

/-- A value accepted for a declared `str` field: text only. -/
def asStr : JsonVal → Option String
  | .jstr s => some s
  | _ => none

/-- Modelled from the spec: pydantic validation of a request body against
`BookCreate` (framework code, absent from the repository).  "Body fields
`title`/`author` must be present and be text; absence or wrong type fails
with 422 before reaching persistence." -/
def parseBookCreate (body : RawBody) : Option BookCreate :=
  match (body.fields.lookup "title").bind asStr,
        (body.fields.lookup "author").bind asStr with
  | some t, some a => some ⟨t, a⟩
  | _, _ => none

/-- The digits of a path segment read as a number; empty means no digits,
a non-digit character makes the whole segment invalid. -/
def parseDigits (cs : List Char) : Option Nat :=
  match cs with
  | [] => none
  | _ =>
    cs.foldl
      (fun acc c =>
        match acc with
        | some n => if c.isDigit then some (n * 10 + (c.toNat - 48)) else none
        | none => none)
      (some 0)

/-- Modelled from the spec: FastAPI validation of the `{book_id}` path
segment against the declared `int` type (framework code, absent from the
repository).  "Path `id` must parse as an integer; non-integer path
segments fail with 422/400 (malformed request) before reaching
persistence." -/
def parsePathInt (s : String) : Option Int :=
  match s.data with
  | '-' :: rest => (parseDigits rest).map (fun n => -(n : Int))
  | cs => (parseDigits cs).map (fun n => (n : Int))

/-- An HTTP response: status code and JSON-object body. -/
structure HttpResponse where
  status : Nat
  body : List (String × JsonVal)
deriving DecidableEq, Repr

/-- A `BookOut` serialised to its JSON object. -/
def bookOutFields (b : BookOut) : List (String × JsonVal) :=
  [("id", .jint b.id), ("title", .jstr b.title), ("author", .jstr b.author)]

/-- The 422 response the framework produces when request validation
fails. -/
def validationResponse : HttpResponse :=
  ⟨422, [("detail", .jstr "request validation error")]⟩

/-- A raised `HTTPException` serialised: its status with a
`{"detail": ...}` body. -/
def exceptionResponse (e : HTTPException) : HttpResponse :=
  ⟨e.status_code, [("detail", .jstr e.detail)]⟩

/-- GET /books/{book_id} end to end: validate the path segment (422 on
failure, nothing touched), then run `get_book` and serialise. -/
def handle_get_book (rawId : String) (db : DB) : HttpResponse × DB :=
  match parsePathInt rawId with
  | none => (validationResponse, db)
  | some book_id =>
    match get_book book_id db with
    | .ok out => (⟨200, bookOutFields out⟩, db)
    | .error e => (exceptionResponse e, db)

/-- POST /books end to end: validate the body (422 on failure, nothing
touched), then run `create_book` and serialise with the route's default
status 200. -/
def handle_create_book (body : RawBody) (db : DB) : HttpResponse × DB :=
  match parseBookCreate body with
  | none => (validationResponse, db)
  | some book =>
    let r := create_book book db
    (⟨200, bookOutFields r.1⟩, r.2)

/-- PUT /books/{book_id} end to end: validate the path segment and the
body (422 on any failure, nothing touched), then run `update_book` and
serialise. -/
def handle_update_book (rawId : String) (body : RawBody) (db : DB) :
    HttpResponse × DB :=
  match parsePathInt rawId, parseBookCreate body with
  | none, _ => (validationResponse, db)
  | some _, none => (validationResponse, db)
  | some book_id, some updated_book =>
    match update_book book_id updated_book db with
    | (.ok out, db2) => (⟨200, bookOutFields out⟩, db2)
    | (.error e, db2) => (exceptionResponse e, db2)

/-- DELETE /books/{book_id} end to end: validate the path segment (422 on
failure, nothing touched), then run `delete_book` and serialise with the
route's default status 200. -/
def handle_delete_book (rawId : String) (db : DB) : HttpResponse × DB :=
  match parsePathInt rawId with
  | none => (validationResponse, db)
  | some book_id =>
    match delete_book book_id db with
    | (.ok m, db2) => (⟨200, [("message", .jstr m.message)]⟩, db2)
    | (.error e, db2) => (exceptionResponse e, db2)

end BookService

namespace BookService

/-! ## Helper lemmas -/

/-- Looking up a freshly appended row whose id is above every stored id
finds exactly that row. -/
theorem find?_fresh_append (l : List Book) (n : Int) (t a : String)
    (h : ∀ bk ∈ l, bk.id < n) :
    (l ++ [(⟨n, t, a⟩ : Book)]).find? (fun bk => bk.id == n) = some ⟨n, t, a⟩ := by
  rw [List.find?_append]
  have h1 : l.find? (fun bk => bk.id == n) = none := by
    rw [List.find?_eq_none]
    intro x hx
    simp only [beq_iff_eq]
    exact Int.ne_of_lt (h x hx)
  rw [h1]
  simp

/-- After `updateFirst`, looking up the id finds the row with the new
title and author but the old id. -/
theorem find?_updateFirst (l : List Book) (i : Int) (t a : String) (bk : Book)
    (h : l.find? (fun b => b.id == i) = some bk) :
    (updateFirst l i t a).find? (fun b => b.id == i) = some ⟨bk.id, t, a⟩ := by
  induction l with
  | nil => simp at h
  | cons b rest ih =>
    by_cases hb : (b.id == i) = true
    · have hbk : b = bk := by
        rw [@List.find?_cons_of_pos _ (fun x => x.id == i) b rest hb] at h
        exact Option.some.inj h
      subst hbk
      simp only [updateFirst, if_pos hb]
      exact @List.find?_cons_of_pos _ (fun x => x.id == i) ⟨b.id, t, a⟩ rest hb
    · rw [@List.find?_cons_of_neg _ (fun x => x.id == i) b rest hb] at h
      simp only [updateFirst, if_neg hb]
      rw [@List.find?_cons_of_neg _ (fun x => x.id == i) b (updateFirst rest i t a) hb]
      exact ih h

/-- When ids are pairwise distinct, erasing the first row matching an id
leaves no row matching it. -/
theorem find?_eraseP_of_nodup (l : List Book) (i : Int)
    (hnd : (l.map Book.id).Nodup) :
    (l.eraseP (fun b => b.id == i)).find? (fun b => b.id == i) = none := by
  induction l with
  | nil => simp
  | cons b rest ih =>
    rw [List.map_cons, List.nodup_cons] at hnd
    by_cases hb : (b.id == i) = true
    · have hbi : b.id = i := by simpa using hb
      rw [@List.eraseP_cons_of_pos _ b rest (fun x => x.id == i) hb, List.find?_eq_none]
      intro x hx
      simp only [beq_iff_eq]
      intro hxi
      have hmem : x.id ∈ rest.map Book.id := List.mem_map_of_mem Book.id hx
      rw [hxi, ← hbi] at hmem
      exact hnd.1 hmem
    · rw [@List.eraseP_cons_of_neg _ b rest (fun x => x.id == i) hb,
        @List.find?_cons_of_neg _ (fun x => x.id == i) b
          (rest.eraseP (fun x => x.id == i)) hb]
      exact ih hnd.2

/-- `updateFirst` leaves the id column unchanged. -/
theorem updateFirst_map_id (l : List Book) (i : Int) (t a : String) :
    (updateFirst l i t a).map Book.id = l.map Book.id := by
  induction l with
  | nil => rfl
  | cons b rest ih =>
    by_cases hb : (b.id == i) = true
    · simp [updateFirst, hb]
    · simp [updateFirst, hb, ih]

end BookService

namespace BookService

/-! ## Claim theorems -/

/-- C1: for every valid `BookCreate` body, inserting it via `create_book`
and then reading back the assigned id via `get_book` returns a `BookOut`
equal to the one returned by `create_book` (same id, title, author). -/
theorem create_then_get_roundtrip (b : BookCreate) (db : DB)
    (hfresh : FreshIds db) :
    get_book (create_book b db).1.id (create_book b db).2
      = .ok (create_book b db).1 := by
  have hq : queryFirst (create_book b db).2 (create_book b db).1.id
      = some ⟨db.nextId, b.title, b.author⟩ := by
    simpa [queryFirst, create_book, Book.toOut] using
      find?_fresh_append db.books db.nextId b.title b.author hfresh
  unfold get_book
  rw [hq]
  rfl

theorem create_then_get_roundtrip_witness :
    get_book (create_book ⟨"Dune", "Herbert"⟩ ⟨[], 1⟩).1.id
        (create_book ⟨"Dune", "Herbert"⟩ ⟨[], 1⟩).2
      = .ok (create_book ⟨"Dune", "Herbert"⟩ ⟨[], 1⟩).1 :=
  create_then_get_roundtrip ⟨"Dune", "Herbert"⟩ ⟨[], 1⟩ (by decide)

/-- C2: for every id with no matching row, `get_book`, `update_book` and
`delete_book` all raise `HTTPException(404, "Book not found")`, and
`update_book` and `delete_book` leave the store unchanged. -/
theorem missing_id_not_found (book_id : Int) (b : BookCreate) (db : DB)
    (h : queryFirst db book_id = none) :
    get_book book_id db = .error ⟨404, "Book not found"⟩ ∧
    update_book book_id b db = (.error ⟨404, "Book not found"⟩, db) ∧
    delete_book book_id db = (.error ⟨404, "Book not found"⟩, db) := by
  refine ⟨?_, ?_, ?_⟩ <;> simp [get_book, update_book, delete_book, h]

theorem missing_id_not_found_witness :
    get_book 9999 ⟨[], 1⟩ = .error ⟨404, "Book not found"⟩ ∧
    update_book 9999 ⟨"a", "b"⟩ ⟨[], 1⟩ = (.error ⟨404, "Book not found"⟩, ⟨[], 1⟩) ∧
    delete_book 9999 ⟨[], 1⟩ = (.error ⟨404, "Book not found"⟩, ⟨[], 1⟩) :=
  missing_id_not_found 9999 ⟨"a", "b"⟩ ⟨[], 1⟩ (by decide)

/-- C3: for every id present in the store and every valid body,
`update_book` preserves the record's id, replaces its title and author
with the body's values, returns the updated view, and a subsequent
`get_book` on that id returns the updated values. -/
theorem update_existing (book_id : Int) (b2 : BookCreate) (db : DB) (bk : Book)
    (h : queryFirst db book_id = some bk) :
    (update_book book_id b2 db).1 = .ok ⟨book_id, b2.title, b2.author⟩ ∧
    get_book book_id (update_book book_id b2 db).2
      = .ok ⟨book_id, b2.title, b2.author⟩ := by
  have hid : bk.id = book_id := by
    simpa [beq_iff_eq] using List.find?_some h
  constructor
  · simp [update_book, h, hid]
  · have hf := find?_updateFirst db.books book_id b2.title b2.author bk h
    have hdb2 : (update_book book_id b2 db).2
        = ⟨updateFirst db.books book_id b2.title b2.author, db.nextId⟩ := by
      simp [update_book, h]
    have hq2 : queryFirst ⟨updateFirst db.books book_id b2.title b2.author, db.nextId⟩
        book_id = some ⟨bk.id, b2.title, b2.author⟩ := hf
    rw [hdb2]
    unfold get_book
    rw [hq2, hid]
    rfl

theorem update_existing_witness :
    (update_book 1 ⟨"Dune", "F. Herbert"⟩ ⟨[⟨1, "Dune", "Herbert"⟩], 2⟩).1
      = .ok ⟨1, "Dune", "F. Herbert"⟩ ∧
    get_book 1 (update_book 1 ⟨"Dune", "F. Herbert"⟩ ⟨[⟨1, "Dune", "Herbert"⟩], 2⟩).2
      = .ok ⟨1, "Dune", "F. Herbert"⟩ :=
  update_existing 1 ⟨"Dune", "F. Herbert"⟩ ⟨[⟨1, "Dune", "Herbert"⟩], 2⟩
    ⟨1, "Dune", "Herbert"⟩ (by decide)

/-- C4: for every id present in a store with pairwise-distinct ids,
`delete_book` removes that row: a subsequent `get_book` on the id raises
404 "Book not found" and `get_books` no longer lists a record with that
id. -/
theorem delete_existing (book_id : Int) (db : DB) (bk : Book)
    (h : queryFirst db book_id = some bk)
    (hnd : (db.books.map Book.id).Nodup) :
    get_book book_id (delete_book book_id db).2 = .error ⟨404, "Book not found"⟩ ∧
    ∀ v ∈ get_books (delete_book book_id db).2, v.id ≠ book_id := by
  have hf := find?_eraseP_of_nodup db.books book_id hnd
  constructor
  · have hdb2 : (delete_book book_id db).2
        = ⟨db.books.eraseP (fun b => b.id == book_id), db.nextId⟩ := by
      simp [delete_book, h]
    have hq2 : queryFirst ⟨db.books.eraseP (fun b => b.id == book_id), db.nextId⟩
        book_id = none := hf
    rw [hdb2]
    unfold get_book
    rw [hq2]
  · intro v hv
    simp only [delete_book, h, get_books, List.mem_map] at hv
    obtain ⟨c, hc, rfl⟩ := hv
    rw [List.find?_eq_none] at hf
    simpa [Book.toOut] using hf c hc

theorem delete_existing_witness :
    get_book 1 (delete_book 1 ⟨[⟨1, "Dune", "Herbert"⟩], 2⟩).2
      = .error ⟨404, "Book not found"⟩ ∧
    ∀ v ∈ get_books (delete_book 1 ⟨[⟨1, "Dune", "Herbert"⟩], 2⟩).2, v.id ≠ 1 :=
  delete_existing 1 ⟨[⟨1, "Dune", "Herbert"⟩], 2⟩ ⟨1, "Dune", "Herbert"⟩
    (by decide) (by decide)

/-- C5: for every store state and every valid body, the list after
`create_book` is the previous list (pre-existing entries unchanged, in
order) extended by exactly one new `BookOut` carrying the body's title and
author. -/
theorem list_after_create (b : BookCreate) (db : DB) :
    get_books (create_book b db).2
      = get_books db ++ [⟨(create_book b db).1.id, b.title, b.author⟩] ∧
    (get_books (create_book b db).2).length = (get_books db).length + 1 ∧
    (create_book b db).1.title = b.title ∧ (create_book b db).1.author = b.author := by
  refine ⟨?_, ?_, rfl, rfl⟩ <;> simp [get_books, create_book, Book.toOut]

end BookService

namespace BookService

/-- C6 counterexample: the claim says create never stores an empty title
or author, but a `BookCreate` body with empty strings passes the declared
`str` validation, is accepted end to end with status 200, and the created
row is stored with an empty title and author. -/
theorem create_stores_empty_strings :
    (create_book ⟨"", ""⟩ ⟨[], 1⟩).2.books = [⟨1, "", ""⟩] ∧
    (handle_create_book ⟨[("title", .jstr ""), ("author", .jstr "")]⟩ ⟨[], 1⟩).1.status
      = 200 ∧
    ¬ (∀ bk ∈ (create_book ⟨"", ""⟩ ⟨[], 1⟩).2.books, bk.title ≠ "") := by
  refine ⟨rfl, rfl, ?_⟩
  decide

/-- C6 (amended): every persisted `Book` has a unique `id` and (non-null)
string `title`/`author`, and `create_book`, `update_book` and
`delete_book` preserve this uniqueness invariant; emptiness of `title` or
`author` is not restricted. -/
theorem operations_preserve_WF (db : DB) (b : BookCreate) (book_id : Int)
    (hwf : WF db) :
    WF (create_book b db).2 ∧ WF (update_book book_id b db).2 ∧
    WF (delete_book book_id db).2 := by
  obtain ⟨hnd, hfresh⟩ := hwf
  refine ⟨⟨?_, ?_⟩, ?_, ?_⟩
  · simp only [create_book, List.map_append, List.map_cons, List.map_nil]
    rw [List.nodup_append]
    refine ⟨hnd, List.nodup_singleton _, ?_⟩
    intro x hx hx2
    obtain ⟨c, hc, rfl⟩ := List.mem_map.mp hx
    simp only [List.mem_singleton] at hx2
    exact absurd hx2 (Int.ne_of_lt (hfresh c hc))
  · intro bk hbk
    simp only [create_book, List.mem_append, List.mem_singleton] at hbk
    rcases hbk with h1 | rfl
    · have := hfresh bk h1
      simp only [create_book]
      omega
    · simp only [create_book]
      omega
  · cases hq : queryFirst db book_id with
    | none =>
      constructor
      · simpa [update_book, hq] using hnd
      · intro c hc
        simp only [update_book, hq] at hc ⊢
        exact hfresh c hc
    | some bk =>
      constructor
      · simpa [update_book, hq, updateFirst_map_id] using hnd
      · intro c hc
        simp only [update_book, hq] at hc ⊢
        have hm : c.id ∈ (updateFirst db.books book_id b.title b.author).map Book.id :=
          List.mem_map_of_mem Book.id hc
        rw [updateFirst_map_id] at hm
        obtain ⟨d, hd, hde⟩ := List.mem_map.mp hm
        rw [← hde]
        exact hfresh d hd
  · cases hq : queryFirst db book_id with
    | none =>
      constructor
      · simpa [delete_book, hq] using hnd
      · intro c hc
        simp only [delete_book, hq] at hc ⊢
        exact hfresh c hc
    | some bk =>
      have hsub : (db.books.eraseP (fun x => x.id == book_id)).Sublist db.books :=
        List.eraseP_sublist _
      constructor
      · simp only [delete_book, hq]
        exact List.Nodup.sublist (hsub.map Book.id) hnd
      · intro c hc
        simp only [delete_book, hq] at hc ⊢
        exact hfresh c (hsub.subset hc)

theorem operations_preserve_WF_witness :
    WF (create_book ⟨"a", "b"⟩ ⟨[⟨1, "Dune", "Herbert"⟩], 2⟩).2 ∧
    WF (update_book 1 ⟨"a", "b"⟩ ⟨[⟨1, "Dune", "Herbert"⟩], 2⟩).2 ∧
    WF (delete_book 1 ⟨[⟨1, "Dune", "Herbert"⟩], 2⟩).2 :=
  operations_preserve_WF ⟨[⟨1, "Dune", "Herbert"⟩], 2⟩ ⟨"a", "b"⟩ 1 (by decide)

end BookService

namespace BookService

/-- C7: for every request whose path id does not parse as an integer, or
whose body is missing `title`/`author` or gives them a non-text value, the
routes taking that input reject it with the framework's 422 response
before any persistence operation runs, leaving the stored state unchanged:
a malformed path id rejects GET, DELETE and PUT (whatever the body), and a
malformed body rejects POST and PUT (whatever the path and whether or not
the id is present). -/
theorem malformed_request_rejected (rawId : String) (body : RawBody) (db : DB) :
    (parsePathInt rawId = none →
      handle_get_book rawId db = (validationResponse, db) ∧
      handle_delete_book rawId db = (validationResponse, db) ∧
      handle_update_book rawId body db = (validationResponse, db)) ∧
    (parseBookCreate body = none →
      handle_create_book body db = (validationResponse, db) ∧
      handle_update_book rawId body db = (validationResponse, db)) ∧
    validationResponse.status = 422 := by
  refine ⟨fun hid => ⟨?_, ?_, ?_⟩, fun hb => ⟨?_, ?_⟩, rfl⟩
  · simp [handle_get_book, hid]
  · simp [handle_delete_book, hid]
  · simp [handle_update_book, hid]
  · simp [handle_create_book, hb]
  · cases hip : parsePathInt rawId <;> simp [handle_update_book, hip, hb]

theorem malformed_request_rejected_witness :
    handle_get_book "abc" ⟨[], 1⟩ = (validationResponse, ⟨[], 1⟩) ∧
    handle_delete_book "abc" ⟨[], 1⟩ = (validationResponse, ⟨[], 1⟩) ∧
    handle_update_book "abc" ⟨[("title", .jstr "x"), ("author", .jstr "y")]⟩ ⟨[], 1⟩
      = (validationResponse, ⟨[], 1⟩) ∧
    handle_create_book ⟨[("title", .jstr "x")]⟩ ⟨[], 1⟩
      = (validationResponse, ⟨[], 1⟩) ∧
    handle_update_book "1" ⟨[("title", .jint 3)]⟩ ⟨[⟨1, "Dune", "Herbert"⟩], 2⟩
      = (validationResponse, ⟨[⟨1, "Dune", "Herbert"⟩], 2⟩) :=
  ⟨((malformed_request_rejected "abc"
      ⟨[("title", .jstr "x"), ("author", .jstr "y")]⟩ ⟨[], 1⟩).1 (by decide)).1,
   ((malformed_request_rejected "abc"
      ⟨[("title", .jstr "x"), ("author", .jstr "y")]⟩ ⟨[], 1⟩).1 (by decide)).2.1,
   ((malformed_request_rejected "abc"
      ⟨[("title", .jstr "x"), ("author", .jstr "y")]⟩ ⟨[], 1⟩).1 (by decide)).2.2,
   ((malformed_request_rejected "1" ⟨[("title", .jstr "x")]⟩ ⟨[], 1⟩).2.1
      (by decide)).1,
   ((malformed_request_rejected "1" ⟨[("title", .jint 3)]⟩
      ⟨[⟨1, "Dune", "Herbert"⟩], 2⟩).2.1 (by decide)).2⟩

/-- C8: for every id present in the store, a successful DELETE returns
status 200 with a body whose `message` field is exactly
`"Book(id={id}) deleted succesfully"` (the source's spelling), the id
rendered in decimal. -/
theorem delete_success_message (rawId : String) (book_id : Int) (db : DB) (bk : Book)
    (hp : parsePathInt rawId = some book_id)
    (h : queryFirst db book_id = some bk) :
    (handle_delete_book rawId db).1
      = ⟨200, [("message",
          .jstr ("Book(id=" ++ toString book_id ++ ") deleted succesfully"))]⟩ := by
  simp [handle_delete_book, hp, delete_book, h]

theorem delete_success_message_witness :
    (handle_delete_book "1" ⟨[⟨1, "Dune", "Herbert"⟩], 2⟩).1
      = ⟨200, [("message",
          .jstr ("Book(id=" ++ toString (1 : Int) ++ ") deleted succesfully"))]⟩ :=
  delete_success_message "1" 1 ⟨[⟨1, "Dune", "Herbert"⟩], 2⟩ ⟨1, "Dune", "Herbert"⟩
    (by decide) (by decide)

/-- C9: for every valid `BookCreate` body, a successful POST /books
returns HTTP status 200 (the route declares no other status) with a
`BookOut` body carrying the store-assigned id and the submitted title and
author. -/
theorem create_returns_200 (body : RawBody) (bc : BookCreate) (db : DB)
    (h : parseBookCreate body = some bc) :
    handle_create_book body db
      = (⟨200, bookOutFields ⟨db.nextId, bc.title, bc.author⟩⟩,
          (create_book bc db).2) := by
  simp [handle_create_book, h, create_book, Book.toOut, bookOutFields]

theorem create_returns_200_witness :
    handle_create_book ⟨[("title", .jstr "Dune"), ("author", .jstr "Herbert")]⟩ ⟨[], 1⟩
      = (⟨200, bookOutFields ⟨1, "Dune", "Herbert"⟩⟩,
          (create_book ⟨"Dune", "Herbert"⟩ ⟨[], 1⟩).2) :=
  create_returns_200 ⟨[("title", .jstr "Dune"), ("author", .jstr "Herbert")]⟩
    ⟨"Dune", "Herbert"⟩ ⟨[], 1⟩ (by decide)

/-- C10: for every PUT whose path id parses but has no matching row and
whose body fails `BookCreate` validation, the response is the 422
validation response, not 404: body validation happens before the
existence lookup. -/
theorem malformed_body_beats_not_found (rawId : String) (book_id : Int)
    (body : RawBody) (db : DB)
    (hp : parsePathInt rawId = some book_id)
    (hb : parseBookCreate body = none)
    (habs : queryFirst db book_id = none) :
    (handle_update_book rawId body db).1 = validationResponse ∧
    (handle_update_book rawId body db).1.status = 422 ∧
    (handle_update_book rawId body db).1.status ≠ 404 := by
  refine ⟨?_, ?_, ?_⟩ <;> simp [handle_update_book, hp, hb, validationResponse]

theorem malformed_body_beats_not_found_witness :
    (handle_update_book "5" ⟨[("title", .jint 3)]⟩ ⟨[], 1⟩).1 = validationResponse ∧
    (handle_update_book "5" ⟨[("title", .jint 3)]⟩ ⟨[], 1⟩).1.status = 422 ∧
    (handle_update_book "5" ⟨[("title", .jint 3)]⟩ ⟨[], 1⟩).1.status ≠ 404 :=
  malformed_body_beats_not_found "5" 5 ⟨[("title", .jint 3)]⟩ ⟨[], 1⟩
    (by decide) (by decide) (by decide)

end BookService
